import Mathlib

/-!
Shallow embedding of the escrow lifecycle engine of
`src/src/freelance.rs` (contract `EscrowServiceContract`), together with
theorems checking the specification's claims about it.

Modelling conventions:
- `Address` is an opaque account identifier (`Nat`).
- Soroban's `env.accounts().is_valid_address` is the external Identity
  Gate; it is modelled as a boolean predicate carried by an `Env` record.
- All `u64` amounts and counters are modelled as `Nat`; the `u64`
  additions of the source (`released_amount += amount`,
  `released_amount += milestones[i].amount`, `escrow_count + 1`) wrap at
  `2 ^ 64`, written as an explicit `% u64Lim`.
- Contract storage is modelled per record: `deposit_funds`,
  `release_funds` and `refund_funds` read and write only the single
  `Escrows(escrow_id)` slot, so they take the `Option Escrow` stored
  there and return the pair (result, slot after the call); every early
  `return Err(..)` of the source leaves the slot untouched.
  `initiate_escrow` also touches the project map and the escrow counter,
  so it acts on a `Store` record.
- The source's `get::<_, T>(..)?` on a missing record is modelled as an
  error return with the slot unchanged.
-/

namespace Freelance

/-- Wrap-around bound of the source's `u64` arithmetic. -/
def u64Lim : Nat := 2 ^ 64

/-- Opaque account identifier (Soroban `Address`). -/
abbrev Address := Nat

/-- Milestone record of `freelance.rs` (lines 41-48). -/
structure Milestone where
  description : String
  amount : Nat
  completed : Bool
  deadline : Nat
deriving DecidableEq

/-- Project status enum of `freelance.rs` (lines 32-39). -/
inductive ProjectStatus where
  | Open
  | InProgress
  | Completed
  | Cancelled
deriving DecidableEq

/-- Project record of `freelance.rs` (lines 18-30). -/
structure Project where
  id : Nat
  client : Address
  title : String
  description : String
  category : String
  budget : Nat
  deadline : Nat
  milestones : List Milestone
  status : ProjectStatus
deriving DecidableEq

/-- Escrow state enum of `freelance.rs` (lines 71-78). -/
inductive EscrowState where
  | Created
  | InProgress
  | Completed
  | Refunded
deriving DecidableEq

/-- Escrow record of `freelance.rs` (lines 59-69). -/
structure Escrow where
  project_id : Nat
  client : Address
  freelancer : Address
  total_amount : Nat
  milestones : List Milestone
  released_amount : Nat
  state : EscrowState
deriving DecidableEq

/-- Host environment: the Identity Gate's address-validity oracle
(`env.accounts().is_valid_address`). -/
structure Env where
  is_valid_address : Address → Bool

/-- Contract storage touched by `initiate_escrow`: the projects map, the
escrows map and the `EscrowCount` counter (`None` before its first write,
read back with `unwrap_or(0)`). -/
structure Store where
  projects : Nat → Option Project
  escrows : Nat → Option Escrow
  escrow_count : Option Nat

/-- `deposit_funds` of `freelance.rs` (lines 176-198), acting on the
`Escrows(escrow_id)` slot. Mirrors the source exactly: validity check,
lookup, client-or-freelancer check, then unconditionally
`released_amount += amount` (u64 wrap) and a move to `InProgress` when
the new `released_amount` equals `total_amount`. -/
def deposit_funds (env : Env) (from_ : Address) (rec : Option Escrow) (amount : Nat) :
    Except String Unit × Option Escrow :=
  if !env.is_valid_address from_ then
    (Except.error "Invalid address", rec)
  else
    match rec with
    | none => (Except.error "escrow not found", rec)
    | some escrow =>
      if escrow.client ≠ from_ ∧ escrow.freelancer ≠ from_ then
        (Except.error "Unauthorized: Only client or freelancer can deposit funds", rec)
      else
        let updated : Escrow :=
          { escrow with released_amount := (escrow.released_amount + amount) % u64Lim }
        let final : Escrow :=
          if updated.released_amount = updated.total_amount then
            { updated with state := EscrowState.InProgress }
          else updated
        (Except.ok (), some final)

/-- The loop of `release_funds` (lines 217-220):
`let mut released_amount = 0; for i in 0..milestone_index { released_amount += milestones[i].amount }`
with wrapping u64 addition. -/
def sum_before (ms : List Milestone) (k : Nat) : Nat :=
  (ms.take k).foldl (fun acc m => (acc + m.amount) % u64Lim) 0

/-- `release_funds` of `freelance.rs` (lines 200-235), acting on the
`Escrows(escrow_id)` slot. Mirrors the source exactly: validity check,
lookup, bounds check on `milestone_index`, completion check on the
indexed milestone, prefix-sum computation, sufficient-funds guard, then
`released_amount := sum` and a move to `Completed` when the new
`released_amount` equals `total_amount`. Note the source performs no
comparison of `from` against the escrow's `client` and no check of the
escrow's `state`. -/
def release_funds (env : Env) (from_ : Address) (rec : Option Escrow) (milestone_index : Nat) :
    Except String Unit × Option Escrow :=
  if !env.is_valid_address from_ then
    (Except.error "Invalid client address", rec)
  else
    match rec with
    | none => (Except.error "escrow not found", rec)
    | some escrow =>
      match escrow.milestones[milestone_index]? with
      | none => (Except.error "Invalid milestone index", rec)
      | some m =>
        if !m.completed then
          (Except.error "Milestone not marked as completed", rec)
        else
          let released : Nat := sum_before escrow.milestones milestone_index
          if escrow.released_amount < released then
            (Except.error "Insufficient funds deposited in escrow", rec)
          else
            let updated : Escrow := { escrow with released_amount := released }
            let final : Escrow :=
              if updated.released_amount = updated.total_amount then
                { updated with state := EscrowState.Completed }
              else updated
            (Except.ok (), some final)

/-- `refund_funds` of `freelance.rs` (lines 237-255), acting on the
`Escrows(escrow_id)` slot. Mirrors the source exactly: validity check,
lookup, `state == Created` check, then `state := Refunded`. Note the
source performs no comparison of `from` against the escrow's `client`. -/
def refund_funds (env : Env) (from_ : Address) (rec : Option Escrow) :
    Except String Unit × Option Escrow :=
  if !env.is_valid_address from_ then
    (Except.error "Invalid client address", rec)
  else
    match rec with
    | none => (Except.error "escrow not found", rec)
    | some escrow =>
      if escrow.state ≠ EscrowState.Created then
        (Except.error "Refund not allowed in current escrow state", rec)
      else
        (Except.ok (), some { escrow with state := EscrowState.Refunded })

/-- `initiate_escrow` of `freelance.rs` (lines 131-174). Mirrors the
source: validity check; project lookup where a missing project or a
client mismatch is rejected (the source's `is_none() || .. != from`
check); open-project check; then it builds the escrow from the project
(`total_amount = budget`, the project's milestones verbatim,
`released_amount = 0`, `state = Created`), allocates
`escrow_id = EscrowCount.unwrap_or(0) + 1` (u64 wrap), stores the escrow
and the counter, marks the project `InProgress`, and returns `Ok(())`. -/
def initiate_escrow (env : Env) (from_ : Address) (project_id : Nat) (freelancer : Address)
    (st : Store) : Except String Unit × Store :=
  if !env.is_valid_address from_ then
    (Except.error "Invalid client address", st)
  else
    match st.projects project_id with
    | none =>
      (Except.error "Unauthorized: Only client who posted the project can initiate escrow", st)
    | some project =>
      if project.client ≠ from_ then
        (Except.error "Unauthorized: Only client who posted the project can initiate escrow", st)
      else if project.status ≠ ProjectStatus.Open then
        (Except.error "Project is not open for escrow initiation", st)
      else
        let escrow : Escrow :=
          { project_id := project_id
            client := project.client
            freelancer := freelancer
            total_amount := project.budget
            milestones := project.milestones
            released_amount := 0
            state := EscrowState.Created }
        let escrow_id : Nat := (st.escrow_count.getD 0 + 1) % u64Lim
        let st' : Store :=
          { projects := fun k =>
              if k = project_id then some { project with status := ProjectStatus.InProgress }
              else st.projects k
            escrows := fun k => if k = escrow_id then some escrow else st.escrows k
            escrow_count := some escrow_id }
        (Except.ok (), st')

/-! Concrete fixtures for counterexample and witness theorems. -/

/-- Identity Gate that recognises every address. -/
def envAll : Env := ⟨fun _ => true⟩

/-- Identity Gate that recognises no address. -/
def envNone : Env := ⟨fun _ => false⟩

/-- Milestones of spec Scenario A: amounts 40 and 60, the second marked
completed (as in Scenario C). -/
def msA : List Milestone :=
  [⟨"m0", 40, false, 0⟩, ⟨"m1", 60, true, 0⟩]

/-- The escrow of spec Scenario C: client 1, freelancer 2,
`total_amount = 100`, `released_amount = 100`, state `InProgress`. -/
def escrowA : Escrow := ⟨1, 1, 2, 100, msA, 100, EscrowState.InProgress⟩

/-- A freshly created escrow: total 50, nothing released. -/
def escrowE : Escrow := ⟨2, 1, 2, 50, [⟨"m", 10, true, 0⟩], 0, EscrowState.Created⟩

/-- A refunded escrow (terminal state) with a completed milestone. -/
def escrowR : Escrow := ⟨2, 1, 2, 50, [⟨"m", 10, true, 0⟩], 20, EscrowState.Refunded⟩

/-- The project of spec Scenario A: client 1, budget 100, open. -/
def projectA : Project := ⟨1, 1, "t", "d", "c", 100, 0, msA, ProjectStatus.Open⟩

/-- Initial store: project 1 posted, no escrows, counter unset. -/
def store0 : Store := ⟨fun k => if k = 1 then some projectA else none, fun _ => none, none⟩

/-- An escrow with a completed milestone at index 1 but only 10 units
accounted (less than the 40-unit prefix sum). -/
def escrowLow : Escrow := ⟨1, 1, 2, 100, msA, 10, EscrowState.InProgress⟩

/-- An escrow whose first milestone is completed and whose accounted
balance is 70. -/
def escrowT : Escrow :=
  ⟨1, 1, 2, 100, [⟨"m0", 40, true, 0⟩, ⟨"m1", 60, false, 0⟩], 70, EscrowState.InProgress⟩

/-- C1: the claimed invariant `released_amount <= total_amount` is broken
by the code. Starting from the store holding only project 1 (budget 100),
`initiate_escrow` creates escrow 1 with `total_amount = 100` and
`released_amount = 0`; a single `deposit_funds` of 150 by the client then
succeeds and stores `released_amount = 150 > 100 = total_amount`: the
source adds `amount` with no cap against `total_amount`. -/
theorem c1_deposit_breaks_cap :
    (deposit_funds envAll 1 ((initiate_escrow envAll 1 1 2 store0).2.escrows 1) 150).1 =
      Except.ok () ∧
    (deposit_funds envAll 1 ((initiate_escrow envAll 1 1 2 store0).2.escrows 1) 150).2 =
      some { project_id := 1, client := 1, freelancer := 2, total_amount := 100,
             milestones := msA, released_amount := 150, state := EscrowState.Created } ∧
    100 < 150 :=
  ⟨rfl, by decide, by decide⟩

/-- C2: the claim that `release_funds` rejects a non-client with an
unauthorized error is false of the code: the source never compares `from`
with the escrow's `client`. Address 2 (the freelancer, not the client 1)
calls `release_funds` on the Scenario C escrow and the call succeeds,
rewriting `released_amount` to 40. -/
theorem c2_release_skips_auth :
    escrowA.client ≠ 2 ∧
    (release_funds envAll 2 (some escrowA) 1).1 = Except.ok () ∧
    (release_funds envAll 2 (some escrowA) 1).2 = some { escrowA with released_amount := 40 } :=
  ⟨by decide, rfl, by decide⟩

/-- C3: terminal states are not sticky in the code: neither
`deposit_funds` nor `release_funds` inspects the escrow's `state`. On the
refunded escrow `escrowR` (state `Refunded`), a deposit of 10 by the
client succeeds (raising `released_amount` from 20 to 30) and a release
of milestone 0 succeeds (resetting `released_amount` to 0), where the
claim demands both fail with an invalid-state error. -/
theorem c3_terminal_not_sticky :
    escrowR.state = EscrowState.Refunded ∧
    (deposit_funds envAll 1 (some escrowR) 10).1 = Except.ok () ∧
    (deposit_funds envAll 1 (some escrowR) 10).2 = some { escrowR with released_amount := 30 } ∧
    (release_funds envAll 1 (some escrowR) 0).1 = Except.ok () ∧
    (release_funds envAll 1 (some escrowR) 0).2 = some { escrowR with released_amount := 0 } :=
  ⟨rfl, rfl, by decide, rfl, by decide⟩

/-- C4 counterexample: `released_amount` is not monotonically
non-decreasing. On the Scenario C escrow (`released_amount = 100`), a
successful `release_funds` at milestone index 1 rewrites
`released_amount` to the prefix sum 40 < 100. -/
theorem c4_counterexample :
    (release_funds envAll 1 (some escrowA) 1).1 = Except.ok () ∧
    (release_funds envAll 1 (some escrowA) 1).2 = some { escrowA with released_amount := 40 } ∧
    40 < escrowA.released_amount :=
  ⟨rfl, by decide, by decide⟩

/-- C6: the claim that `refund_funds` rejects a non-client with an
unauthorized error is false of the code: the source never compares `from`
with the escrow's `client`. Address 3 (neither client 1 nor freelancer 2)
refunds the `Created` escrow `escrowE` successfully, moving it to
`Refunded`. -/
theorem c6_refund_skips_auth :
    escrowE.client ≠ 3 ∧
    (refund_funds envAll 3 (some escrowE)).1 = Except.ok () ∧
    (refund_funds envAll 3 (some escrowE)).2 =
      some { escrowE with state := EscrowState.Refunded } :=
  ⟨by decide, rfl, by decide⟩

/-- C9 counterexample: a successful `initiate_escrow` does not return the
freshly allocated escrow id. On the initial store the call allocates
id 1 (visible in the stored `EscrowCount`), but its success value is the
unit value `()` — the source's `Ok(())` — not the identifier. -/
theorem c9_counterexample :
    (initiate_escrow envAll 1 1 2 store0).1 = Except.ok () ∧
    (initiate_escrow envAll 1 1 2 store0).2.escrow_count = some 1 :=
  ⟨rfl, by decide⟩

/-- The wrapping fold of the release loop agrees with the plain sum as
long as the plain sum stays below the `u64` bound. -/
theorem foldl_wrap_eq_sum (l : List Milestone) (acc : Nat)
    (h : acc + (l.map Milestone.amount).sum < u64Lim) :
    l.foldl (fun a m => (a + m.amount) % u64Lim) acc = acc + (l.map Milestone.amount).sum := by
  induction l generalizing acc with
  | nil => simp
  | cons m t ih =>
    simp only [List.map_cons, List.sum_cons] at h
    simp only [List.foldl_cons, List.map_cons, List.sum_cons]
    have hm : (acc + m.amount) % u64Lim = acc + m.amount := Nat.mod_eq_of_lt (by omega)
    rw [hm, ih (acc + m.amount) (by omega)]
    omega

/-- Overflow-free characterization of `sum_before`. -/
theorem sum_before_eq_sum (ms : List Milestone) (k : Nat)
    (h : ((ms.take k).map Milestone.amount).sum < u64Lim) :
    sum_before ms k = ((ms.take k).map Milestone.amount).sum := by
  have := foldl_wrap_eq_sum (ms.take k) 0 (by omega)
  simpa [sum_before] using this

/-- C5: on a valid index whose milestone is completed, and with the
prefix sum below the `u64` bound, `release_funds` either (a) succeeds
when the current `released_amount` is at least the sum of the amounts of
the milestones strictly before `milestone_index`, storing exactly that
sum as the new `released_amount` and moving the state to `Completed`
precisely when the new amount equals `total_amount`; or (b) fails with
the insufficient-funds error, leaving the record unchanged, when the
current `released_amount` is below that sum. -/
theorem c5_release_spec (env : Env) (f : Address) (esc : Escrow) (k : Nat) (m : Milestone)
    (hv : env.is_valid_address f = true)
    (hm : esc.milestones[k]? = some m)
    (hc : m.completed = true)
    (hs : ((esc.milestones.take k).map Milestone.amount).sum < u64Lim) :
    (((esc.milestones.take k).map Milestone.amount).sum ≤ esc.released_amount →
      release_funds env f (some esc) k =
        (Except.ok (),
         some { esc with
                released_amount := ((esc.milestones.take k).map Milestone.amount).sum,
                state :=
                  if ((esc.milestones.take k).map Milestone.amount).sum = esc.total_amount
                  then EscrowState.Completed else esc.state })) ∧
    (esc.released_amount < ((esc.milestones.take k).map Milestone.amount).sum →
      release_funds env f (some esc) k =
        (Except.error "Insufficient funds deposited in escrow", some esc)) := by
  have hsb : sum_before esc.milestones k = ((esc.milestones.take k).map Milestone.amount).sum :=
    sum_before_eq_sum esc.milestones k hs
  constructor
  · intro hge
    simp only [release_funds, hv, Bool.not_true, Bool.false_eq_true, if_false, hm, hc,
      if_true, hsb]
    rw [if_neg (by omega)]
    by_cases ht : ((esc.milestones.take k).map Milestone.amount).sum = esc.total_amount
    · rw [if_pos ht, if_pos ht]
    · rw [if_neg ht, if_neg ht]
  · intro hlt
    simp only [release_funds, hv, Bool.not_true, Bool.false_eq_true, if_false, hm, hc,
      if_true, hsb]
    rw [if_pos (by omega)]

/-- Closed instance of the C5 theorem: on the Scenario C escrow
(`released_amount = 100 ≥ 40`) release at index 1 succeeds and stores 40;
on `escrowLow` (`released_amount = 10 < 40`) the same release fails with
the insufficient-funds error and leaves the record unchanged. -/
theorem c5_release_spec_witness :
    release_funds envAll 1 (some escrowA) 1 =
      (Except.ok (), some { escrowA with released_amount := 40 }) ∧
    release_funds envAll 1 (some escrowLow) 1 =
      (Except.error "Insufficient funds deposited in escrow", some escrowLow) :=
  ⟨(c5_release_spec envAll 1 escrowA 1 ⟨"m1", 60, true, 0⟩ rfl rfl rfl (by decide)).1
      (by decide),
   (c5_release_spec envAll 1 escrowLow 1 ⟨"m1", 60, true, 0⟩ rfl rfl rfl (by decide)).2
      (by decide)⟩

/-- C4 (amended): `deposit_funds` never decreases `released_amount`
(absent `u64` overflow of the addition) and `refund_funds` leaves it
unchanged, but a successful `release_funds` overwrites it with the prefix
sum, which the sufficient-funds guard makes at most the previous value —
so under `release_funds` the amount is non-increasing, not
non-decreasing. -/
theorem c4_released_amount_changes :
    (∀ (env : Env) (f : Address) (esc : Escrow) (amount : Nat) (esc' : Escrow),
        esc.released_amount + amount < u64Lim →
        (deposit_funds env f (some esc) amount).2 = some esc' →
        esc.released_amount ≤ esc'.released_amount) ∧
    (∀ (env : Env) (f : Address) (esc esc' : Escrow),
        (refund_funds env f (some esc)).2 = some esc' →
        esc'.released_amount = esc.released_amount) ∧
    (∀ (env : Env) (f : Address) (esc : Escrow) (k : Nat) (esc' : Escrow),
        (release_funds env f (some esc) k).2 = some esc' →
        esc'.released_amount ≤ esc.released_amount) := by
  refine ⟨?_, ?_, ?_⟩
  · intro env f esc amount esc' hov h
    cases hv : env.is_valid_address f with
    | false =>
      simp [deposit_funds, hv] at h
      subst h; omega
    | true =>
      by_cases hauth : esc.client ≠ f ∧ esc.freelancer ≠ f
      · simp [deposit_funds, hv, hauth] at h
        subst h; omega
      · simp only [deposit_funds, hv, Bool.not_true, Bool.false_eq_true, if_false,
          if_neg hauth] at h
        rw [Nat.mod_eq_of_lt hov] at h
        split at h <;> (cases h; simp)
  · intro env f esc esc' h
    cases hv : env.is_valid_address f with
    | false => simp [refund_funds, hv] at h; subst h; rfl
    | true =>
      by_cases hst : esc.state ≠ EscrowState.Created
      · simp [refund_funds, hv, hst] at h
        subst h; rfl
      · simp only [refund_funds, hv, Bool.not_true, Bool.false_eq_true, if_false,
          if_neg hst] at h
        cases h
        rfl
  · intro env f esc k esc' h
    cases hv : env.is_valid_address f with
    | false => simp [release_funds, hv] at h; subst h; omega
    | true =>
      cases hg : esc.milestones[k]? with
      | none => simp [release_funds, hv, hg] at h; subst h; omega
      | some m =>
        cases hc : m.completed with
        | false => simp [release_funds, hv, hg, hc] at h; subst h; omega
        | true =>
          by_cases hfund : esc.released_amount < sum_before esc.milestones k
          · simp [release_funds, hv, hg, hc, hfund] at h
            subst h; omega
          · simp only [release_funds, hv, Bool.not_true, Bool.false_eq_true, if_false,
              hg, hc, if_neg hfund] at h
            split at h <;> (cases h; simp; omega)

/-- Closed instances of the amended C4 theorem: a deposit of 10 into the
fresh escrow raises `released_amount` from 0 to 10; a refund of the same
escrow keeps it at 0; the Scenario C release lowers it from 100 to 40
(not below 0, i.e. never increasing it). -/
theorem c4_released_amount_changes_witness :
    escrowE.released_amount ≤ 10 ∧
    0 = escrowE.released_amount ∧
    40 ≤ escrowA.released_amount :=
  ⟨c4_released_amount_changes.1 envAll 1 escrowE 10 { escrowE with released_amount := 10 }
      (by decide) (by decide),
   c4_released_amount_changes.2.1 envAll 1 escrowE { escrowE with state := EscrowState.Refunded }
      (by decide),
   c4_released_amount_changes.2.2 envAll 1 escrowA 1 { escrowA with released_amount := 40 }
      (by decide)⟩

/-- C7: error atomicity. Whenever `deposit_funds`, `release_funds` or
`refund_funds` returns an error, the stored escrow slot after the call is
exactly the slot before it: every precondition failure in the source is
an early `return Err(..)` executed before the single `storage().set`. -/
theorem c7_error_atomicity :
    (∀ (env : Env) (f : Address) (rec : Option Escrow) (amount : Nat) (e : String),
        (deposit_funds env f rec amount).1 = Except.error e →
        (deposit_funds env f rec amount).2 = rec) ∧
    (∀ (env : Env) (f : Address) (rec : Option Escrow) (k : Nat) (e : String),
        (release_funds env f rec k).1 = Except.error e →
        (release_funds env f rec k).2 = rec) ∧
    (∀ (env : Env) (f : Address) (rec : Option Escrow) (e : String),
        (refund_funds env f rec).1 = Except.error e →
        (refund_funds env f rec).2 = rec) := by
  refine ⟨?_, ?_, ?_⟩
  · intro env f rec amount e h
    cases hv : env.is_valid_address f with
    | false => simp [deposit_funds, hv]
    | true =>
      cases rec with
      | none => simp [deposit_funds, hv]
      | some esc =>
        by_cases hauth : esc.client ≠ f ∧ esc.freelancer ≠ f
        · simp [deposit_funds, hv, hauth]
        · simp [deposit_funds, hv, hauth] at h
  · intro env f rec k e h
    cases hv : env.is_valid_address f with
    | false => simp [release_funds, hv]
    | true =>
      cases rec with
      | none => simp [release_funds, hv]
      | some esc =>
        cases hg : esc.milestones[k]? with
        | none => simp [release_funds, hv, hg]
        | some m =>
          cases hc : m.completed with
          | false => simp [release_funds, hv, hg, hc]
          | true =>
            by_cases hfund : esc.released_amount < sum_before esc.milestones k
            · simp [release_funds, hv, hg, hc, hfund]
            · simp [release_funds, hv, hg, hc, hfund] at h
  · intro env f rec e h
    cases hv : env.is_valid_address f with
    | false => simp [refund_funds, hv]
    | true =>
      cases rec with
      | none => simp [refund_funds, hv]
      | some esc =>
        by_cases hst : esc.state ≠ EscrowState.Created
        · simp [refund_funds, hv, hst]
        · simp [refund_funds, hv, hst] at h

/-- Closed instances of the C7 theorem: a deposit rejected by the
Identity Gate, a release rejected for an out-of-range milestone index,
and a refund rejected in a terminal state all leave the stored slot
unchanged. -/
theorem c7_error_atomicity_witness :
    (deposit_funds envNone 1 (some escrowE) 5).2 = some escrowE ∧
    (release_funds envAll 1 (some escrowA) 5).2 = some escrowA ∧
    (refund_funds envAll 1 (some escrowR)).2 = some escrowR :=
  ⟨c7_error_atomicity.1 envNone 1 (some escrowE) 5 "Invalid address" rfl,
   c7_error_atomicity.2.1 envAll 1 (some escrowA) 5 "Invalid milestone index" rfl,
   c7_error_atomicity.2.2 envAll 1 (some escrowR) "Refund not allowed in current escrow state" rfl⟩

/-- C8: refund idempotence in effect. On an escrow in state `Created`,
the client's first `refund_funds` succeeds and stores the record with
state `Refunded`; a second `refund_funds` on the stored record fails with
the invalid-state error and leaves that record in place, so the slot
after both calls equals the slot after the first call alone. -/
theorem c8_refund_idempotent (env : Env) (esc : Escrow)
    (hv : env.is_valid_address esc.client = true)
    (hs : esc.state = EscrowState.Created) :
    refund_funds env esc.client (some esc) =
      (Except.ok (), some { esc with state := EscrowState.Refunded }) ∧
    refund_funds env esc.client (some { esc with state := EscrowState.Refunded }) =
      (Except.error "Refund not allowed in current escrow state",
       some { esc with state := EscrowState.Refunded }) := by
  constructor
  · simp [refund_funds, hv, hs]
  · simp [refund_funds, hv]

/-- Closed instance of the C8 theorem at the fresh `Created` escrow
`escrowE` (client 1). -/
theorem c8_refund_idempotent_witness :
    refund_funds envAll 1 (some escrowE) =
      (Except.ok (), some { escrowE with state := EscrowState.Refunded }) ∧
    refund_funds envAll 1 (some { escrowE with state := EscrowState.Refunded }) =
      (Except.error "Refund not allowed in current escrow state",
       some { escrowE with state := EscrowState.Refunded }) :=
  c8_refund_idempotent envAll escrowE rfl rfl

/-- C10: when milestone 0 is completed, `release_funds` at index 0 by any
address the Identity Gate accepts succeeds no matter what
`released_amount` currently is — the prefix sum over the empty prefix is
0 and the sufficient-funds guard `released_amount < 0` can never fire —
and it stores `released_amount = 0`, erasing any previously accounted
balance (moving to `Completed` exactly when `total_amount = 0`). -/
theorem c10_release_zero (env : Env) (f : Address) (esc : Escrow) (m : Milestone)
    (hv : env.is_valid_address f = true)
    (hm : esc.milestones[0]? = some m)
    (hc : m.completed = true) :
    release_funds env f (some esc) 0 =
      (Except.ok (),
       some { esc with
              released_amount := 0,
              state :=
                if 0 = esc.total_amount then EscrowState.Completed
                else esc.state }) := by
  have h0 : sum_before esc.milestones 0 = 0 := rfl
  simp only [release_funds, hv, Bool.not_true, Bool.false_eq_true, if_false, hm, hc, h0]
  rw [if_neg (Nat.not_lt_zero _)]
  by_cases ht : (0 : Nat) = esc.total_amount
  · rw [if_pos ht, if_pos ht]
  · rw [if_neg ht, if_neg ht]

/-- Closed instance of the C10 theorem: on `escrowT` (first milestone
completed, 70 units accounted, total 100) a release at index 0 by the
freelancer succeeds and resets `released_amount` to 0. -/
theorem c10_release_zero_witness :
    release_funds envAll 2 (some escrowT) 0 =
      (Except.ok (), some { escrowT with released_amount := 0 }) :=
  c10_release_zero envAll 2 escrowT ⟨"m0", 40, true, 0⟩ rfl rfl rfl

/-- C9 (amended): a successful `initiate_escrow` allocates the fresh id
`EscrowCount + 1` — distinct from every previously allocated id, given
that all ids already in the store are at most the stored counter and the
counter does not overflow — and stores under it a record with `client`
equal to the acting client, `state = Created`, `released_amount = 0` and
the project's milestones verbatim; the new id is persisted as the
updated counter, but the operation's success value is `()`, not the id. -/
theorem c9_initiate_fresh (env : Env) (from_ : Address) (pid : Nat) (freelancer : Address)
    (st : Store) (project : Project)
    (hv : env.is_valid_address from_ = true)
    (hp : st.projects pid = some project)
    (hc : project.client = from_)
    (ho : project.status = ProjectStatus.Open)
    (hids : ∀ i, (st.escrows i).isSome = true → i ≤ st.escrow_count.getD 0)
    (hov : st.escrow_count.getD 0 + 1 < u64Lim) :
    (initiate_escrow env from_ pid freelancer st).1 = Except.ok () ∧
    st.escrows (st.escrow_count.getD 0 + 1) = none ∧
    (initiate_escrow env from_ pid freelancer st).2.escrows (st.escrow_count.getD 0 + 1) =
      some { project_id := pid, client := from_, freelancer := freelancer,
             total_amount := project.budget, milestones := project.milestones,
             released_amount := 0, state := EscrowState.Created } ∧
    (initiate_escrow env from_ pid freelancer st).2.escrow_count =
      some (st.escrow_count.getD 0 + 1) := by
  have hfresh : st.escrows (st.escrow_count.getD 0 + 1) = none := by
    cases he : st.escrows (st.escrow_count.getD 0 + 1) with
    | none => rfl
    | some esc =>
      have := hids (st.escrow_count.getD 0 + 1) (by rw [he]; rfl)
      omega
  refine ⟨?_, hfresh, ?_, ?_⟩
  · simp [initiate_escrow, hv, hp, hc, ho]
  · simp [initiate_escrow, hv, hp, hc, ho, Nat.mod_eq_of_lt hov]
  · simp [initiate_escrow, hv, hp, hc, ho, Nat.mod_eq_of_lt hov]

/-- Closed instance of the amended C9 theorem at the initial store:
creating the escrow for project 1 stores escrow 1 (fresh, since the store
held none), with client 1, the project's two milestones, nothing released
and state `Created`, and sets the counter to 1. -/
theorem c9_initiate_fresh_witness :
    (initiate_escrow envAll 1 1 2 store0).1 = Except.ok () ∧
    store0.escrows 1 = none ∧
    (initiate_escrow envAll 1 1 2 store0).2.escrows 1 =
      some { project_id := 1, client := 1, freelancer := 2, total_amount := 100,
             milestones := msA, released_amount := 0, state := EscrowState.Created } ∧
    (initiate_escrow envAll 1 1 2 store0).2.escrow_count = some 1 :=
  c9_initiate_fresh envAll 1 1 2 store0 projectA rfl rfl rfl rfl
    (fun i h => by simp [store0] at h) (by decide)

end Freelance
